import Mathlib

/-!
Shallow embedding of the aggregation / normalization pipeline of the
`dashboard-px` repository, translated from `py/data_loader.py` and
`py/data_transformer.py`.  Numeric cells are modelled as rationals;
pandas float cells that can hold `inf`/`NaN` are modelled by `PFloat`.
-/

set_option linter.unusedVariables false

/-- Pandas float-cell state: a finite rational, one of the infinities, or
NaN.  Division by zero in pandas produces `inf`, `-inf` or `NaN`, so the
model keeps those states explicit until the replace/fillna step. -/
inductive PFloat where
  | finite (q : ℚ)
  | pinf
  | ninf
  | nan
deriving DecidableEq

/-- Pandas elementwise division of float columns: `a / 0` is `inf` for
positive `a`, `-inf` for negative `a`, and `NaN` for `0 / 0`. -/
def PFloat.div (a b : ℚ) : PFloat :=
  if b = 0 then
    if 0 < a then .pinf else if a < 0 then .ninf else .nan
  else .finite (a / b)

/-- The `replace([inf, -inf], 0).fillna(0)` step applied to the derived
metric columns (`data_loader.py` lines 199-200). -/
def replace_inf_fillna : PFloat → PFloat
  | .finite q => .finite q
  | _ => .finite 0

/-- One row of a cleaned / combined master record set, with the canonical
columns read by the aggregations.  `vendedor` and `produto` are plain
strings because `dropna(subset=['Vendedor', 'Produto'])` has already run;
`descricao` stays nullable — `Descricao` is not a required column and no
step fills or drops null cells in it; `valor_unidade` and `diferenca` are
present exactly when the raw table had a `Valor_Unidade` column;
`nome_loja` is present once the row was tagged with its store. -/
structure Row where
  n_doc : Option String
  cliente : Option String
  vendedor : String
  produto : String
  descricao : Option String
  quantidade : ℚ
  valor_total : ℚ
  valor_unidade : Option ℚ
  diferenca : Option ℚ
  periodo : Option String
  nome_loja : Option String
deriving DecidableEq

/-- One row of the salesperson aggregation (`calcular_metricas_vendedor`).
`ticket_medio` and `performance` are float cells, so they are `PFloat`. -/
structure VendRow where
  consultor : String
  total_produtos : ℚ
  venda_rs : ℚ
  total_os : ℕ
  ticket_medio : PFloat
  performance : PFloat
deriving DecidableEq

/-- The salesperson aggregation result: its column list and its rows. -/
structure VendFrame where
  columns : List String
  rows : List VendRow
deriving DecidableEq

/-- Aggregation by salesperson, `data_loader.py` lines 166-205: group by
`Vendedor`; sum `Quantidade` and `Valor_Total`, count distinct non-null
`N_Doc`; derive `Ticket_Medio = Venda_RS / Total_OS` and
`Performance = Total_Produtos / Total_OS`, then replace `inf`/`NaN` by 0;
finally rename `Vendedor` to `Consultor`.  Group keys are listed by
`List.dedup`; pandas sorts the group keys, but no property proved here
depends on the order of the aggregated rows.  `nunique` ignores nulls,
hence the `filterMap`.  `vend_row_of` builds the aggregated row of one
group key. -/
def vend_row_of (df : List Row) (v : String) : VendRow :=
  let grp := df.filter (fun r => r.vendedor == v)
  let total_produtos := (grp.map (·.quantidade)).sum
  let venda_rs := (grp.map (·.valor_total)).sum
  let total_os := ((grp.filterMap (·.n_doc)).dedup).length
  { consultor := v
    total_produtos := total_produtos
    venda_rs := venda_rs
    total_os := total_os
    ticket_medio := replace_inf_fillna (PFloat.div venda_rs total_os)
    performance := replace_inf_fillna (PFloat.div total_produtos total_os) }

def calcular_metricas_vendedor (df : List Row) : VendFrame :=
  if df.isEmpty then
    { columns := ["Consultor", "Total_Produtos", "Venda_RS", "Total_OS",
                  "Ticket_Medio", "Performance"],
      rows := [] }
  else
    { columns := ["Consultor", "Total_Produtos", "Venda_RS", "Total_OS",
                  "Ticket_Medio", "Performance"],
      rows := ((df.map (·.vendedor)).dedup).map (vend_row_of df) }

/-- One row of the product aggregation (`calcular_metricas_produto`). -/
structure ProdRow where
  produto : String
  descricao : String
  quantidade_total : ℚ
  valor_total : ℚ
  penetracao_produto : ℚ
deriving DecidableEq

/-- The product aggregation result. -/
structure ProdFrame where
  columns : List String
  rows : List ProdRow
deriving DecidableEq

/-- Aggregation by product, `data_loader.py` lines 208-242: the grand
total `total_geral` sums `Quantidade` over every row (line 227); then
group by `(Produto, Descricao)` — pandas `groupby` drops the rows whose
`Descricao` key is null, so they contribute to `total_geral` but to no
group — sum `Quantidade` and `Valor_Total`; penetration is
`Quantidade_Total / total_geral * 100` when the grand total is positive,
else the whole column is set to 0.  `prod_row_of` builds the aggregated
row of one (non-null) group key. -/
def prod_row_of (df : List Row) (k : String × String) : ProdRow :=
  let total_geral := (df.map (·.quantidade)).sum
  let grp := df.filter (fun r => r.produto == k.1 && r.descricao == some k.2)
  { produto := k.1
    descricao := k.2
    quantidade_total := (grp.map (·.quantidade)).sum
    valor_total := (grp.map (·.valor_total)).sum
    penetracao_produto :=
      if 0 < total_geral then
        (grp.map (·.quantidade)).sum / total_geral * 100
      else 0 }

def calcular_metricas_produto (df : List Row) : ProdFrame :=
  if df.isEmpty then
    { columns := ["Produto", "Descricao", "Quantidade_Total",
                  "Valor_Total", "Penetracao_Produto"],
      rows := [] }
  else
    { columns := ["Produto", "Descricao", "Quantidade_Total",
                  "Valor_Total", "Penetracao_Produto"],
      rows := ((df.filterMap
          (fun r => r.descricao.map (fun d => (r.produto, d)))).dedup).map
        (prod_row_of df) }

/-- One row of the period-and-store aggregation. -/
structure TempRow where
  periodo : String
  nome_loja : String
  total_produtos : ℚ
  venda_rs : ℚ
  periodo_str : String
deriving DecidableEq

/-- The period-and-store aggregation result. -/
structure TempFrame where
  columns : List String
  rows : List TempRow
deriving DecidableEq

/-- Aggregation by period and store, `data_loader.py` lines 332-357: group
by `(Periodo, Nome_Loja)` (pandas drops rows whose group key is null), sum
`Quantidade` and `Valor_Total`, then append a string column `Periodo_Str`
(`astype(str)` of the period; the period is already modelled by its month
label).  Note that the empty-input branch (line 344) does not contain the
`Periodo_Str` column.  `temp_row_of` builds the aggregated row of one
group key. -/
def temp_row_of (df : List Row) (k : String × String) : TempRow :=
  let grp := df.filter (fun r =>
    r.periodo == some k.1 && r.nome_loja == some k.2)
  { periodo := k.1
    nome_loja := k.2
    total_produtos := (grp.map (·.quantidade)).sum
    venda_rs := (grp.map (·.valor_total)).sum
    periodo_str := k.1 }

def calcular_metricas_temporais (df : List Row) : TempFrame :=
  if df.isEmpty then
    { columns := ["Periodo", "Nome_Loja", "Total_Produtos", "Venda_RS"],
      rows := [] }
  else
    let keyed := df.filterMap (fun r =>
      match r.periodo, r.nome_loja with
      | some p, some l => some (p, l)
      | _, _ => none)
    { columns := ["Periodo", "Nome_Loja", "Total_Produtos", "Venda_RS",
                  "Periodo_Str"],
      rows := keyed.dedup.map (temp_row_of df) }

/-- Value of a decimal-digit character. -/
def digit_value (c : Char) : Option ℕ :=
  if c.isDigit then some (c.toNat - 48) else none

/-- Value of an all-digit character list (`none` if any character is not a
digit; the empty list is handled by the caller). -/
def digits_value (cs : List Char) : Option ℕ :=
  cs.foldl (fun acc c =>
    match acc, digit_value c with
    | some a, some d => some (a * 10 + d)
    | _, _ => none) (some 0)

/-- Decimal parsing as performed by `pd.to_numeric(..., errors='coerce')`
on the plain sign-digits-dot-digits grammar (the subset the cleaned cells
live in): optional sign, integer digits, optional dot and fraction digits,
at least one digit in total; anything else fails (and becomes `NaN`). -/
def parse_decimal (cs : List Char) : Option ℚ :=
  let signed : ℚ × List Char :=
    match cs with
    | '-' :: rest => (-1, rest)
    | '+' :: rest => (1, rest)
    | _ => (1, cs)
  let int_part := signed.2.takeWhile (· != '.')
  match signed.2.dropWhile (· != '.') with
  | [] =>
    if int_part.isEmpty then none
    else (digits_value int_part).map (fun n => signed.1 * n)
  | _ :: frac =>
    if (int_part.isEmpty && frac.isEmpty) || frac.contains '.' then none
    else
      match digits_value int_part, digits_value frac with
      | some i, some f =>
        some (signed.1 * ((i : ℚ) + (f : ℚ) / (10 : ℚ) ^ frac.length))
      | _, _ => none

/-- The numeric-cell cleaning of `read_and_clean_xlsx` (`data_loader.py`
lines 122-127): drop every `.` (taken as a thousands separator), turn `,`
into the decimal point, then parse; an unparseable cell goes through
`errors='coerce'` and `fillna(0)` and becomes 0. -/
def clean_cell (s : String) : ℚ :=
  let cs := (s.toList.filter (· != '.')).map (fun c => if c = ',' then '.' else c)
  (parse_decimal cs).getD 0

/-- Digits of a natural number, most significant first (`fuel` bounds the
recursion; `fuel = n + 1` always suffices). -/
def nat_digits (fuel n : ℕ) : List Char :=
  match fuel with
  | 0 => []
  | fuel + 1 =>
    if n < 10 then [Char.ofNat (48 + n)]
    else nat_digits fuel (n / 10) ++ [Char.ofNat (48 + n % 10)]

/-- Digits of the fractional part `q` (with `0 ≤ q < 1`) of a decimal
number, produced by repeated multiplication by 10. -/
def frac_digits (fuel : ℕ) (q : ℚ) : List Char :=
  match fuel with
  | 0 => []
  | fuel + 1 =>
    if q = 0 then []
    else Char.ofNat (48 + (q * 10).floor.toNat) :: frac_digits fuel (q * 10 - (q * 10).floor)

/-- Python rendering of a float cell, as `astype(str)` produces it: sign,
integer digits, a decimal point, then the fraction digits (a single `0`
when the value is integral, e.g. `10.0`). -/
def float_repr (q : ℚ) : String :=
  let a := |q|
  let ip := nat_digits (a.floor.toNat + 1) a.floor.toNat
  let fp := frac_digits 20 (a - a.floor)
  String.mk ((if q < 0 then ['-'] else []) ++ ip ++ '.' :: (if fp.isEmpty then ['0'] else fp))

/-- One raw row of an XLSX source sheet, seen through `astype(str)` for the
numeric cells (pandas renders every cell of the three numeric columns as a
string before the cleaning): optional fields model null cells.  The `Mes`
column and the period extraction of `parse_periodos` are outside the
modelled claims and are omitted; `periodo` of a cleaned row is `none`. -/
structure XlsxRow where
  n_doc : Option String
  cliente : Option String
  vendedor : Option String
  produto : Option String
  descricao : Option String
  quantidade : String
  valor_unidade : String
  valor_total : String
deriving DecidableEq

/-- A raw XLSX sheet: its (pre-rename) column names and its rows. -/
structure XlsxTable where
  columns : List String
  rows : List XlsxRow
deriving DecidableEq

/-- The `expected_columns` rename map of `read_and_clean_xlsx`
(`data_loader.py` lines 79-92). -/
def expected_columns : List (String × String) :=
  [("Mês", "Mes"), ("N° Doc", "N_Doc"), ("Cliente", "Cliente"),
   ("CNPJ", "CNPJ"), ("Vendedor", "Vendedor"), ("CPF", "CPF"),
   ("Produto", "Produto"), ("Valor_Unidade", "Valor_Unidade"),
   ("Descrição", "Descricao"), ("Quantidade", "Quantidade"),
   ("Função", "Funcao"), ("Valor_Total", "Valor_Total")]

/-- Whitespace stripping of a column name (`str.strip()`). -/
def strip_str (s : String) : String :=
  String.mk ((((s.toList.dropWhile (·.isWhitespace)).reverse).dropWhile
    (·.isWhitespace)).reverse)

/-- Column renaming: `df.columns.str.strip()` followed by
`df.rename(columns=expected_columns)`; unknown names pass through. -/
def rename_column (c : String) : String :=
  (expected_columns.lookup (strip_str c)).getD (strip_str c)

/-- The required columns of `read_and_clean_xlsx` (line 99). -/
def required_cols : List String :=
  ["Vendedor", "Produto", "Quantidade", "Valor_Total"]

/-- Infix test on character lists. -/
def is_infix_chars (needle : List Char) : List Char → Bool
  | [] => needle.isEmpty
  | c :: rest => needle.isPrefixOf (c :: rest) || is_infix_chars needle rest

/-- Case-insensitive substring containment, modelling
`Series.str.contains(loja_filter, case=False)` under the literal-substring
reading of the pattern (store filters are plain names). -/
def contains_ci (hay pat : String) : Bool :=
  is_infix_chars (pat.toList.map Char.toLower) (hay.toList.map Char.toLower)

/-- Python truthiness of the optional `loja_filter` argument: `None` and
the empty string are falsy. -/
def filter_truthy : Option String → Bool
  | none => false
  | some f => !f.isEmpty

/-- Append a column name if it is not already present (assigning to a
DataFrame column creates it at the end, or overwrites it in place). -/
def add_col (cols : List String) (c : String) : List String :=
  if cols.contains c then cols else cols ++ [c]

/-- A cleaned table: the output of `read_and_clean_xlsx`. -/
structure CleanTable where
  columns : List String
  rows : List Row
deriving DecidableEq

/-- The `missing` check of `read_and_clean_xlsx` line 100: required
columns absent after the rename. -/
def missing_cols (tbl : XlsxTable) : List String :=
  required_cols.filter (fun c => !(tbl.columns.map rename_column).contains c)

/-- The file-based Normalizer `read_and_clean_xlsx` (`data_loader.py`
lines 60-159), over a table already loaded from disk:
1. strip and rename the columns;
2. fail (`None`) when a required column is missing;
3. when a truthy store filter is given and a `Cliente` column exists, keep
   the rows whose client contains the filter case-insensitively (null
   clients excluded, `na=False`) and fail when none match;
4. clean the three numeric columns (`Valor_Unidade` only when present);
5. drop the rows with a null `Vendedor` or `Produto` (the numeric cleaning
   and this drop are independent row-wise, so their order is immaterial);
6. when `Valor_Unidade` is present, add `Valor_Calculado` and `Diferenca =
   |Valor_Total - Valor_Unidade * Quantidade|` (the inconsistency check is
   advisory: it only feeds a warning, it removes nothing);
7. tag the rows with `Nome_Loja = loja_filter` when the filter is truthy. -/
def read_and_clean_xlsx (tbl : XlsxTable) (loja_filter : Option String) :
    Option CleanTable :=
  let cols := tbl.columns.map rename_column
  if !(missing_cols tbl).isEmpty then none
  else
    let step : Option (List XlsxRow) :=
      if filter_truthy loja_filter && cols.contains "Cliente" then
        let f := loja_filter.getD ""
        let filtered := tbl.rows.filter (fun r =>
          match r.cliente with
          | some cl => contains_ci cl f
          | none => false)
        if filtered.isEmpty then none else some filtered
      else some tbl.rows
    match step with
    | none => none
    | some rows1 =>
      let hasVU := cols.contains "Valor_Unidade"
      let rows2 : List Row := rows1.filterMap (fun r =>
        match r.vendedor, r.produto with
        | some v, some p =>
          let q := clean_cell r.quantidade
          let vt := clean_cell r.valor_total
          let vu := if hasVU then some (clean_cell r.valor_unidade) else none
          some { n_doc := r.n_doc
                 cliente := r.cliente
                 vendedor := v
                 produto := p
                 descricao := r.descricao
                 quantidade := q
                 valor_total := vt
                 valor_unidade := vu
                 diferenca := vu.map (fun u => |vt - u * q|)
                 periodo := none
                 nome_loja := if filter_truthy loja_filter then loja_filter else none }
        | _, _ => none)
      let cols2 := if hasVU then add_col (add_col cols "Valor_Calculado") "Diferenca" else cols
      some { columns := if filter_truthy loja_filter then add_col cols2 "Nome_Loja" else cols2
             rows := rows2 }

/-- The advisory inconsistency flag (the `erros` subset of
`data_loader.py` line 139): cleaned rows whose `Diferenca` exceeds the
tolerance.  It only drives a warning message and never removes rows. -/
def flagged_rows (rows : List Row) (tolerancia : ℚ) : List Row :=
  rows.filter (fun r =>
    match r.diferenca with
    | some d => decide (tolerancia < d)
    | none => false)

/-- A source descriptor of the Combiner: the sheet content behind `path`
(`none` when the file is absent or unreadable), the optional client filter
and the optional display name. -/
structure LojaConfig where
  path : Option XlsxTable
  filter : Option String
  name : Option String

/-- Loading one source: a missing or unreadable file yields `None`, else
the source is cleaned by `read_and_clean_xlsx` with the config's filter. -/
def load_source (c : LojaConfig) : Option CleanTable :=
  match c.path with
  | none => none
  | some t => read_and_clean_xlsx t c.filter

/-- Store tagging inside `load_and_combine_data` (lines 260-262): when the
cleaned table has no `Nome_Loja` column, every row is tagged with
`config.get('name', config.get('filter', 'Desconhecido'))`. -/
def tag_nome_loja (c : LojaConfig) (t : CleanTable) : List Row :=
  if t.columns.contains "Nome_Loja" then t.rows
  else t.rows.map (fun r =>
    { r with nome_loja := some ((c.name).getD ((c.filter).getD "Desconhecido")) })

/-- The Source Combiner `load_and_combine_data` (`data_loader.py` lines
249-273): clean each source independently, skip the sources that yield no
data, concatenate the rest in order (`pd.concat`, no deduplication), and
fail only when every source yielded nothing. -/
def load_and_combine_data (loja_configs : List LojaConfig) : Option (List Row) :=
  if (loja_configs.filterMap
      (fun c => (load_source c).map (tag_nome_loja c))).isEmpty then none
  else some (loja_configs.filterMap
      (fun c => (load_source c).map (tag_nome_loja c))).flatten

/-- A calendar date `(year, month, day)`, the shape of the `reference_date`
values the SQL boundary returns. -/
abbrev Date := ℕ × ℕ × ℕ

/-- One raw row of the SQL result set (`SalesQueries.get_sales_data`),
before `DataTransformer.normalize_sales_data`: every field the normalizer
touches can be null. -/
structure DBRow where
  n_doc : Option String
  mes : Option Date
  vendedor : Option String
  produto : Option String
  descricao : String
  quantidade : Option ℚ
  valor_unidade : Option ℚ
  valor_total : Option ℚ
  status_preco : String
  nome_loja : String
deriving DecidableEq

/-- One canonical row produced by `normalize_sales_data`: numerics are
filled with 0, `Vendedor`/`Produto` are non-null, and the derived period
columns are functions of `Mes`. -/
structure NRow where
  n_doc : Option String
  mes : Option Date
  data : Option Date
  periodo : Option (ℕ × ℕ)
  periodo_display : Option String
  vendedor : String
  produto : String
  descricao : String
  quantidade : ℚ
  valor_unidade : ℚ
  valor_total : ℚ
  status_preco : String
  nome_loja : String
deriving DecidableEq

/-- English month abbreviation, as `strftime('%b')` renders it in the C
locale. -/
def month_abbrev : ℕ → String
  | 1 => "Jan" | 2 => "Feb" | 3 => "Mar" | 4 => "Apr"
  | 5 => "May" | 6 => "Jun" | 7 => "Jul" | 8 => "Aug"
  | 9 => "Sep" | 10 => "Oct" | 11 => "Nov" | 12 => "Dec"
  | _ => "---"

/-- Two-digit year, as `strftime('%y')` renders it. -/
def two_digit_year (y : ℕ) : String :=
  String.mk (if y % 100 < 10 then '0' :: nat_digits (y % 100 + 1) (y % 100)
             else nat_digits (y % 100 + 1) (y % 100))

/-- The `Periodo_Display` label `strftime('%b/%y')`. -/
def periodo_display_of (d : Date) : String :=
  month_abbrev d.2.1 ++ "/" ++ two_digit_year d.1

/-- The database-row Normalizer `DataTransformer.normalize_sales_data`
(`data_transformer.py` lines 65-96): rename the columns (the SQL aliases
map one-to-one onto the canonical names, which the row types already
carry), derive `Data`, `Periodo` (month granularity) and `Periodo_Display`
from `Mes`, fill the null numerics with 0 (`to_numeric(...).fillna(0)`),
and drop the rows with a null `Vendedor` or `Produto`. -/
def normalize_sales_data (df_raw : List DBRow) : List NRow :=
  df_raw.filterMap (fun r =>
    match r.vendedor, r.produto with
    | some v, some p =>
      some { n_doc := r.n_doc
             mes := r.mes
             data := r.mes
             periodo := r.mes.map (fun d => (d.1, d.2.1))
             periodo_display := r.mes.map periodo_display_of
             vendedor := v
             produto := p
             descricao := r.descricao
             quantidade := (r.quantidade).getD 0
             valor_unidade := (r.valor_unidade).getD 0
             valor_total := (r.valor_total).getD 0
             status_preco := r.status_preco
             nome_loja := r.nome_loja }
    | _, _ => none)

/-- The action of `normalize_sales_data` on a frame that is already its
own output: the rename map has only lowercase keys, so it touches no
canonical column; `pd.to_datetime` is the identity on datetimes and the
three period columns are recomputed from the unchanged `Mes`;
`to_numeric(...).fillna(0)` is the identity on non-null numerics; and
`dropna` keeps every row, `Vendedor` and `Produto` being non-null. -/
def normalize_sales_data_canonical (df : List NRow) : List NRow :=
  df.map (fun r =>
    { r with data := r.mes
             periodo := r.mes.map (fun d => (d.1, d.2.1))
             periodo_display := r.mes.map periodo_display_of })

/-- The `astype(str)` view of a cleaned row, as `read_and_clean_xlsx`
would see it when fed its own (written-back) output: the float cells come
back rendered with a decimal point. -/
def row_to_xlsx (r : Row) : XlsxRow :=
  { n_doc := r.n_doc
    cliente := r.cliente
    vendedor := some r.vendedor
    produto := some r.produto
    descricao := r.descricao
    quantidade := float_repr r.quantidade
    valor_total := float_repr r.valor_total
    valor_unidade :=
      match r.valor_unidade with
      | some u => float_repr u
      | none => "" }

/-- A cleaned table rendered back to the raw-sheet shape. -/
def clean_table_to_xlsx (t : CleanTable) : XlsxTable :=
  { columns := t.columns, rows := t.rows.map row_to_xlsx }

/-- The validation counters of `DataTransformer.validate_data_quality`. -/
structure Validations where
  total_registros : ℕ
  produtos_sem_preco : ℕ
  valores_zerados : ℕ
  quantidades_invalidas : ℕ
  registros_invalidos : ℕ
deriving DecidableEq

/-- A normalized frame as `validate_data_quality` receives it: its rows
plus the presence of the three columns the counters look at (`if col in
df.columns`). -/
structure QFrame where
  has_status_preco : Bool
  has_valor_total : Bool
  has_quantidade : Bool
  rows : List NRow

/-- The Quality Reporter `DataTransformer.validate_data_quality`
(`data_transformer.py` lines 98-144): an empty frame returns all-zero
counters; otherwise each counter counts its condition when its column is
present, and `registros_invalidos` is the `max` of the three counters. -/
def validate_data_quality (df : QFrame) : Validations :=
  if df.rows.isEmpty then
    { total_registros := 0, produtos_sem_preco := 0, valores_zerados := 0,
      quantidades_invalidas := 0, registros_invalidos := 0 }
  else
    let sem_preco := if df.has_status_preco then
      df.rows.countP (fun r => r.status_preco == "SEM_PRECO") else 0
    let zerados := if df.has_valor_total then
      df.rows.countP (fun r => decide (r.valor_total = 0)) else 0
    let qtd_invalida := if df.has_quantidade then
      df.rows.countP (fun r => decide (r.quantidade ≤ 0)) else 0
    { total_registros := df.rows.length
      produtos_sem_preco := sem_preco
      valores_zerados := zerados
      quantidades_invalidas := qtd_invalida
      registros_invalidos := max sem_preco (max zerados qtd_invalida) }

/-- Severity tier of a validation message. -/
inductive Severity where
  | critical
  | warning
  | info
deriving DecidableEq

/-- The missing-price branch of `DataTransformer.show_validation_warnings`
(`data_transformer.py` lines 152-174): no message when the frame is empty
or when `produtos_sem_preco` is 0; otherwise `st.error` (critical) when
the percentage exceeds 50, `st.warning` above 20, `st.info` below. -/
def show_validation_warnings_sem_preco (validation : Validations) :
    Option Severity :=
  if validation.total_registros = 0 then none
  else if 0 < validation.produtos_sem_preco then
    if 50 < (validation.produtos_sem_preco : ℚ)
        / (validation.total_registros : ℚ) * 100 then some Severity.critical
    else if 20 < (validation.produtos_sem_preco : ℚ)
        / (validation.total_registros : ℚ) * 100 then some Severity.warning
    else some Severity.info
  else none

/-! Concrete record sets and tables used as counterexamples, failing
inputs and witnesses. -/

/-- A canonical master row: Ana sold one unit of product P1 on order D1. -/
def base_row : Row :=
  { n_doc := some "D1", cliente := none, vendedor := "Ana", produto := "P1",
    descricao := some "Produto 1", quantidade := 1, valor_total := 10,
    valor_unidade := none, diferenca := none, periodo := none,
    nome_loja := none }

/-- Master set with one negative `Valor_Total` (nothing in the pipeline
forbids it: the numeric cleaning parses a leading minus sign). -/
def df_neg : List Row := [{ base_row with quantidade := 1, valor_total := -100 }]

/-- Master set with one well-behaved row. -/
def df_pos : List Row := [{ base_row with quantidade := 10, valor_total := 100 }]

/-- The salesperson row aggregated from `df_pos`. -/
def vrow_pos : VendRow :=
  { consultor := "Ana", total_produtos := 10, venda_rs := 100, total_os := 1,
    ticket_medio := PFloat.finite 100, performance := PFloat.finite 10 }

/-- Master set with two products (quantities 10 and 5). -/
def df_two_products : List Row :=
  [{ base_row with quantidade := 10, valor_total := 100 },
   { base_row with n_doc := some "D2", produto := "P2",
                   descricao := some "Produto 2", quantidade := 5,
                   valor_total := 60 }]

/-- Master set with two rows of quantity 5 where one product description
is null (reachable: `Descricao` is not required and never filled or
dropped). -/
def df_null_desc : List Row :=
  [{ base_row with quantidade := 5, valor_total := 50 },
   { base_row with n_doc := some "D2", produto := "P2", descricao := none,
                   quantidade := 5, valor_total := 50 }]

/-- Master set with one row carrying a period and a store tag. -/
def df_temp : List Row :=
  [{ base_row with periodo := some "2024-01", nome_loja := some "Loja A" }]

/-- A raw database row with quantity 0 and both required fields present. -/
def db_row_qty0 : DBRow :=
  { n_doc := some "D1", mes := none, vendedor := some "Ana",
    produto := some "P1", descricao := "Produto 1", quantidade := some 0,
    valor_unidade := some 10, valor_total := some 0, status_preco := "OK",
    nome_loja := "Loja A" }

/-- A raw XLSX sheet whose single row has quantity cell `0`. -/
def tbl_qty0 : XlsxTable :=
  { columns := ["Vendedor", "Produto", "Quantidade", "Valor_Total"],
    rows := [{ n_doc := some "D1", cliente := none, vendedor := some "Ana",
               produto := some "P1", descricao := some "Produto 1",
               quantidade := "0", valor_unidade := "", valor_total := "0" }] }

/-- A raw XLSX sheet in Brazilian locale: quantity `10`, total `100,50`. -/
def tbl6 : XlsxTable :=
  { columns := ["Vendedor", "Produto", "Quantidade", "Valor_Total"],
    rows := [{ n_doc := some "D1", cliente := none, vendedor := some "Ana",
               produto := some "P1", descricao := some "Produto 1",
               quantidade := "10", valor_unidade := "",
               valor_total := "100,50" }] }

/-- The canonical table `read_and_clean_xlsx` produces from `tbl6`. -/
def ct6 : CleanTable :=
  { columns := ["Vendedor", "Produto", "Quantidade", "Valor_Total"],
    rows := [{ base_row with quantidade := 10, valor_total := 201/2 }] }

/-- A raw XLSX sheet whose single row is value-inconsistent: total
`100,00` against unit price `9,00` times quantity `10` (expected 90). -/
def tbl7 : XlsxTable :=
  { columns := ["N° Doc", "Vendedor", "Produto", "Descrição", "Quantidade",
                "Valor_Unidade", "Valor_Total"],
    rows := [{ n_doc := some "D1", cliente := none, vendedor := some "Ana",
               produto := some "P1", descricao := some "Produto 1",
               quantidade := "10", valor_unidade := "9,00",
               valor_total := "100,00" }] }

/-- The cleaned row of `tbl7`: retained, with `Diferenca = 10`. -/
def r7 : Row :=
  { base_row with quantidade := 10, valor_total := 100,
                  valor_unidade := some 9, diferenca := some 10 }

/-- The canonical table `read_and_clean_xlsx` produces from `tbl7`. -/
def ct7 : CleanTable :=
  { columns := ["N_Doc", "Vendedor", "Produto", "Descricao", "Quantidade",
                "Valor_Unidade", "Valor_Total", "Valor_Calculado",
                "Diferenca"],
    rows := [r7] }

/-- A raw XLSX sheet missing the required `Vendedor` column. -/
def tbl8 : XlsxTable :=
  { columns := ["Produto", "Quantidade", "Valor_Total"], rows := [] }

/-- Source descriptor for store A: Ana sold 10 units for `100,00`. -/
def cfgA : LojaConfig :=
  { path := some { columns := ["N° Doc", "Vendedor", "Produto", "Descrição",
                               "Quantidade", "Valor_Total"],
                   rows := [{ n_doc := some "A1", cliente := none,
                              vendedor := some "Ana", produto := some "P1",
                              descricao := some "Produto 1", quantidade := "10",
                              valor_unidade := "", valor_total := "100,00" }] },
    filter := none, name := some "Loja A" }

/-- Source descriptor for store B: Bruno sold 5 units for `60,00`. -/
def cfgB : LojaConfig :=
  { path := some { columns := ["N° Doc", "Vendedor", "Produto", "Descrição",
                               "Quantidade", "Valor_Total"],
                   rows := [{ n_doc := some "B1", cliente := none,
                              vendedor := some "Bruno", produto := some "P1",
                              descricao := some "Produto 1", quantidade := "5",
                              valor_unidade := "", valor_total := "60,00" }] },
    filter := none, name := some "Loja B" }

/-- The combined master set of `cfgA` and `cfgB`. -/
def resAB : List Row :=
  [{ base_row with n_doc := some "A1", quantidade := 10, valor_total := 100,
                   nome_loja := some "Loja A" },
   { base_row with n_doc := some "B1", vendedor := "Bruno", quantidade := 5,
                   valor_total := 60, nome_loja := some "Loja B" }]

/-- A canonical database-backed row (price resolved). -/
def base_nrow : NRow :=
  { n_doc := some "D1", mes := none, data := none, periodo := none,
    periodo_display := none, vendedor := "Ana", produto := "P1",
    descricao := "Produto 1", quantidade := 1, valor_unidade := 10,
    valor_total := 10, status_preco := "OK", nome_loja := "Loja A" }

/-- A 10-row normalized frame where 6 rows have no resolved price. -/
def q10 : QFrame :=
  { has_status_preco := true, has_valor_total := true, has_quantidade := true,
    rows := List.replicate 6 { base_nrow with status_preco := "SEM_PRECO" }
            ++ List.replicate 4 base_nrow }

/-- The empty normalized frame. -/
def qframe_empty : QFrame :=
  { has_status_preco := true, has_valor_total := true, has_quantidade := true,
    rows := [] }

section
attribute [local semireducible] Rat.add Rat.mul Rat.inv Rat.sub

/-! Helper lemmas about grouped sums. -/

/-- Summing `g` over a duplicate-free key list, with an extra contribution
`c` at the one position equal to `k0`, adds `c` to the plain sum. -/
theorem sum_map_ite_add {κ : Type} [DecidableEq κ] (g : κ → ℚ) (c : ℚ)
    (k0 : κ) :
    ∀ K : List κ, K.Nodup → k0 ∈ K →
      (K.map (fun k => (if k0 = k then c else 0) + g k)).sum
        = c + (K.map g).sum := by
  intro K
  induction K with
  | nil => intro _ h; exact absurd h (List.not_mem_nil k0)
  | cons k K ih =>
    intro hnd hmem
    rcases List.nodup_cons.mp hnd with ⟨hk, hnd2⟩
    by_cases hk0 : k0 = k
    · subst hk0
      have htail : K.map (fun k => (if k0 = k then c else 0) + g k) = K.map g := by
        apply List.map_congr_left
        intro x hx
        have : k0 ≠ x := fun h => hk (h ▸ hx)
        simp [this]
      simp only [List.map_cons, List.sum_cons, htail, eq_self_iff_true, if_true]
      ring
    · have hmem2 : k0 ∈ K := by
        rcases List.mem_cons.mp hmem with h | h
        · exact absurd h hk0
        · exact h
      simp only [List.map_cons, List.sum_cons, ih hnd2 hmem2, if_neg hk0]
      ring

/-- Partition identity for a partial group key: when every row has a
defined key, summing `f` group by group over the deduplicated key list
recovers the total sum (the grouped aggregations of the loader preserve
grand totals over the rows whose key is non-null). -/
theorem sum_filterMap_key {α κ : Type} [DecidableEq κ] [BEq κ] [LawfulBEq κ]
    (key : α → Option κ) (f : α → ℚ) :
    ∀ l : List α, (∀ r ∈ l, (key r).isSome = true) →
      (((l.filterMap key).dedup).map
        (fun k => ((l.filter (fun r => key r == some k)).map f).sum)).sum
        = (l.map f).sum := by
  intro l
  induction l with
  | nil => intro _; rfl
  | cons a t ih =>
    intro hall
    obtain ⟨k0, hk0⟩ :=
      Option.isSome_iff_exists.mp (hall a (List.mem_cons_self a t))
    have hallt : ∀ r ∈ t, (key r).isSome = true :=
      fun r hr => hall r (List.mem_cons_of_mem a hr)
    have hfm : (a :: t).filterMap key = k0 :: t.filterMap key := by
      rw [List.filterMap_cons, hk0]
    have hgrp : ∀ k : κ,
        (((a :: t).filter (fun r => key r == some k)).map f).sum
          = (if k0 = k then f a else 0)
            + ((t.filter (fun r => key r == some k)).map f).sum := by
      intro k
      by_cases hak : k0 = k
      · subst hak
        simp [List.filter_cons, hk0]
      · have hbf : (key a == some k) = false := by
          rw [hk0]
          exact beq_eq_false_iff_ne.mpr (fun h => hak (Option.some.inj h))
        simp [List.filter_cons, hbf, hak]
    rw [hfm]
    by_cases hmem : k0 ∈ t.filterMap key
    · rw [List.dedup_cons_of_mem hmem]
      have hcongr :
          ((t.filterMap key).dedup).map
            (fun k => (((a :: t).filter (fun r => key r == some k)).map f).sum)
            = ((t.filterMap key).dedup).map
              (fun k => (if k0 = k then f a else 0)
                + ((t.filter (fun r => key r == some k)).map f).sum) :=
        List.map_congr_left (fun k _ => hgrp k)
      rw [hcongr,
        sum_map_ite_add
          (fun k => ((t.filter (fun r => key r == some k)).map f).sum)
          (f a) k0 ((t.filterMap key).dedup) (List.nodup_dedup _)
          (List.mem_dedup.mpr hmem), ih hallt]
      simp
    · rw [List.dedup_cons_of_not_mem hmem]
      have hhead : (((a :: t).filter (fun r => key r == some k0)).map f).sum
          = f a := by
        rw [hgrp k0, if_pos rfl]
        have hnil : t.filter (fun r => key r == some k0) = [] := by
          rw [List.filter_eq_nil_iff]
          intro x hx hbeq
          exact hmem (List.mem_filterMap.mpr ⟨x, hx, eq_of_beq hbeq⟩)
        simp [hnil]
      have htail :
          ((t.filterMap key).dedup).map
            (fun k => (((a :: t).filter (fun r => key r == some k)).map f).sum)
            = ((t.filterMap key).dedup).map
              (fun k => ((t.filter (fun r => key r == some k)).map f).sum) := by
        apply List.map_congr_left
        intro k hkm
        rw [hgrp k, if_neg, zero_add]
        intro hak
        exact hmem (hak ▸ List.mem_dedup.mp hkm)
      simp only [List.map_cons, List.sum_cons, hhead, htail, ih hallt]

/-- C2: the claim says the Normalizer excludes every row with quantity
less than or equal to 0.  The code does not: a database row with quantity 0 and
both required fields present is kept by `normalize_sales_data` (and an
XLSX row with quantity cell `0` is kept by `read_and_clean_xlsx`), while a
row with a missing salesperson is indeed dropped.  This contradicts the
warning text of `show_validation_warnings`, which tells the user that the
quantity-invalid records were removed. -/
theorem c2_quantidade_rows_kept :
    (normalize_sales_data [db_row_qty0]).map (·.quantidade) = [0] ∧
    normalize_sales_data [{ db_row_qty0 with vendedor := none }] = [] ∧
    (read_and_clean_xlsx tbl_qty0 none).map
      (fun t => t.rows.map (·.quantidade)) = some [0] := by
  decide

/-- C4 counterexample: for a non-empty master set the period-store
aggregation's column set differs from the one returned for the empty
master set (the non-empty branch appends `Periodo_Str`). -/
theorem c4_counterexample :
    (calcular_metricas_temporais df_temp).columns
      ≠ (calcular_metricas_temporais []).columns := by
  decide

/-- C4 amended: every aggregation maps the empty master set to zero rows
without error; the salesperson and product aggregations keep the same
column set as for any input, while the period-store aggregation's
non-empty output carries the extra `Periodo_Str` column that its
empty-input result lacks. -/
theorem c4_empty_input_shape (df : List Row) :
    ((calcular_metricas_vendedor ([] : List Row)).rows = [] ∧
     (calcular_metricas_produto ([] : List Row)).rows = [] ∧
     (calcular_metricas_temporais ([] : List Row)).rows = []) ∧
    (calcular_metricas_vendedor df).columns
      = (calcular_metricas_vendedor ([] : List Row)).columns ∧
    (calcular_metricas_produto df).columns
      = (calcular_metricas_produto ([] : List Row)).columns ∧
    (df.isEmpty = false →
      (calcular_metricas_temporais df).columns
        = (calcular_metricas_temporais ([] : List Row)).columns
          ++ ["Periodo_Str"]) := by
  refine ⟨by decide, ?_, ?_, ?_⟩
  · unfold calcular_metricas_vendedor
    split <;> rfl
  · unfold calcular_metricas_produto
    split <;> rfl
  · intro h
    unfold calcular_metricas_temporais
    rw [h]
    rfl

/-- C4 witness: the amended shape claim at the concrete one-row set. -/
theorem c4_empty_input_shape_witness :
    (calcular_metricas_temporais df_temp).columns
      = (calcular_metricas_temporais ([] : List Row)).columns
        ++ ["Periodo_Str"] :=
  (c4_empty_input_shape df_temp).2.2.2 (by decide)

/-- C10: `registros_invalidos` is the maximum (not the sum) of the three
condition counters, and the empty frame yields the all-zero report. -/
theorem c10_validate_contract (df : QFrame) :
    (validate_data_quality df).registros_invalidos
      = max (validate_data_quality df).produtos_sem_preco
          (max (validate_data_quality df).valores_zerados
            (validate_data_quality df).quantidades_invalidas) ∧
    (df.rows = [] → validate_data_quality df =
      { total_registros := 0, produtos_sem_preco := 0, valores_zerados := 0,
        quantidades_invalidas := 0, registros_invalidos := 0 }) := by
  constructor
  · unfold validate_data_quality
    split
    · rfl
    · rfl
  · intro h
    simp [validate_data_quality, h]

/-- C10 witness: the empty-frame clause at the concrete empty frame. -/
theorem c10_validate_contract_witness :
    validate_data_quality qframe_empty =
      { total_registros := 0, produtos_sem_preco := 0, valores_zerados := 0,
        quantidades_invalidas := 0, registros_invalidos := 0 } :=
  (c10_validate_contract qframe_empty).2 rfl

/-- C6 counterexample: the file-based cleaning is not stable.  Cleaning
`tbl6` gives the canonical table `ct6` (total `100,50` becomes 100.5); but
cleaning the written-back canonical table again multiplies the values
(the rendered decimal point is stripped as a thousands separator):
`100.5` re-cleans to 1005 and `10.0` to 100. -/
theorem c6_counterexample :
    read_and_clean_xlsx tbl6 none = some ct6 ∧
    read_and_clean_xlsx (clean_table_to_xlsx ct6) none ≠ some ct6 ∧
    (read_and_clean_xlsx (clean_table_to_xlsx ct6) none).map
      (fun t => t.rows.map (·.valor_total)) = some [1005] ∧
    (read_and_clean_xlsx (clean_table_to_xlsx ct6) none).map
      (fun t => t.rows.map (·.quantidade)) = some [100] := by
  decide

/-- C6 amended: the database-row Normalizer is stable — applying
`normalize_sales_data` a second time (its action on an already-canonical
frame) returns the canonical set unchanged.  The file-based cleaning is
not stable (see the counterexample). -/
theorem c6_normalize_stable (l : List DBRow) :
    normalize_sales_data_canonical (normalize_sales_data l)
      = normalize_sales_data l := by
  have h : ∀ x ∈ normalize_sales_data l,
      ({ x with data := x.mes,
                periodo := x.mes.map (fun d => (d.1, d.2.1)),
                periodo_display := x.mes.map periodo_display_of } : NRow)
        = x := by
    intro x hx
    obtain ⟨r, hr, hfx⟩ := List.mem_filterMap.mp hx
    cases hv : r.vendedor with
    | none => rw [hv] at hfx; exact absurd hfx (by simp)
    | some v =>
      cases hp : r.produto with
      | none => rw [hv, hp] at hfx; exact absurd hfx (by simp)
      | some p =>
        rw [hv, hp] at hfx
        have hlit := Option.some.inj hfx
        rw [← hlit]
  unfold normalize_sales_data_canonical
  rw [List.map_congr_left h, List.map_id']

/-- C8: a source table missing any required column after renaming makes
`read_and_clean_xlsx` fail with `none` (the reported missing-schema
condition), for every filter. -/
theorem c8_missing_schema (tbl : XlsxTable) (loja_filter : Option String)
    (h : ∃ c ∈ required_cols, c ∉ tbl.columns.map rename_column) :
    read_and_clean_xlsx tbl loja_filter = none := by
  obtain ⟨c, hc, hnc⟩ := h
  have hmem : c ∈ missing_cols tbl :=
    List.mem_filter.mpr ⟨hc, by simpa using hnc⟩
  have hcond : (missing_cols tbl).isEmpty = false := by
    rcases hx : missing_cols tbl with _ | ⟨a, t⟩
    · rw [hx] at hmem; exact absurd hmem (List.not_mem_nil c)
    · rfl
  unfold read_and_clean_xlsx
  rw [hcond]
  rfl

/-- C8 witness: a table without the `Vendedor` column fails to load. -/
theorem c8_missing_schema_witness : read_and_clean_xlsx tbl8 none = none :=
  c8_missing_schema tbl8 none ⟨"Vendedor", by decide, by decide⟩

/-- Dividing by a zero count and then replacing `inf`/`NaN` always lands
on the finite value 0 (the division-by-zero policy of the loader). -/
theorem replace_div_zero (a : ℚ) :
    replace_inf_fillna (PFloat.div a 0) = PFloat.finite 0 := by
  unfold PFloat.div
  rw [if_pos rfl]
  split
  · rfl
  · split <;> rfl

/-- C1 counterexample: the claim asserts every aggregated `Ticket_Medio`
is at least 0, for every master set.  The cleaning accepts negative raw
values (`-100,00` parses to -100), and the one-row master set `df_neg`
aggregates to a salesperson row whose ticket average is the negative
finite value -100. -/
theorem c1_counterexample :
    clean_cell "-100,00" = -100 ∧
    ∃ row ∈ (calcular_metricas_vendedor df_neg).rows,
      row.ticket_medio = PFloat.finite (-100) ∧ ¬ (0 : ℚ) ≤ -100 := by
  decide

/-- C1 amended: every aggregated salesperson row has finite `Ticket_Medio`
and `Performance` (never `inf`/`NaN`), both forced to 0 when the distinct
order count `Total_OS` is 0, and both nonnegative provided every master
row has nonnegative `Quantidade` and `Valor_Total` (the normalizer does
not enforce nonnegativity, so the unconditional bound fails). -/
theorem c1_vendedor_metrics (df : List Row) :
    ∀ row ∈ (calcular_metricas_vendedor df).rows,
      ∃ t p : ℚ,
        row.ticket_medio = PFloat.finite t ∧
        row.performance = PFloat.finite p ∧
        (row.total_os = 0 → t = 0 ∧ p = 0) ∧
        ((∀ r ∈ df, 0 ≤ r.quantidade ∧ 0 ≤ r.valor_total) →
          0 ≤ t ∧ 0 ≤ p) := by
  intro row hrow
  unfold calcular_metricas_vendedor at hrow
  by_cases hdf : df.isEmpty = true
  · rw [if_pos hdf] at hrow
    exact absurd hrow (List.not_mem_nil row)
  · rw [if_neg hdf] at hrow
    obtain ⟨v, hv, hrw⟩ := List.mem_map.mp hrow
    rw [← hrw]
    have e1 : (vend_row_of df v).ticket_medio
        = replace_inf_fillna (PFloat.div
            ((df.filter (fun r => r.vendedor == v)).map (·.valor_total)).sum
            ((vend_row_of df v).total_os : ℚ)) := rfl
    have e2 : (vend_row_of df v).performance
        = replace_inf_fillna (PFloat.div
            ((df.filter (fun r => r.vendedor == v)).map (·.quantidade)).sum
            ((vend_row_of df v).total_os : ℚ)) := rfl
    rcases Nat.eq_zero_or_pos (vend_row_of df v).total_os with h0 | hpos
    · refine ⟨0, 0, ?_, ?_, fun _ => ⟨rfl, rfl⟩,
        fun _ => ⟨le_refl 0, le_refl 0⟩⟩
      · rw [e1, h0, Nat.cast_zero, replace_div_zero]
      · rw [e2, h0, Nat.cast_zero, replace_div_zero]
    · have hne : ((vend_row_of df v).total_os : ℚ) ≠ 0 := by
        exact_mod_cast Nat.pos_iff_ne_zero.mp hpos
      refine ⟨((df.filter (fun r => r.vendedor == v)).map (·.valor_total)).sum
          / ((vend_row_of df v).total_os : ℚ),
        ((df.filter (fun r => r.vendedor == v)).map (·.quantidade)).sum
          / ((vend_row_of df v).total_os : ℚ), ?_, ?_, ?_, ?_⟩
      · rw [e1]
        unfold PFloat.div
        rw [if_neg hne]
        rfl
      · rw [e2]
        unfold PFloat.div
        rw [if_neg hne]
        rfl
      · intro hz
        exact absurd hz (Nat.pos_iff_ne_zero.mp hpos)
      · intro hall
        constructor
        · apply div_nonneg
          · apply List.sum_nonneg
            intro x hx
            obtain ⟨r, hr, rfl⟩ := List.mem_map.mp hx
            exact (hall r (List.mem_filter.mp hr).1).2
          · exact Nat.cast_nonneg _
        · apply div_nonneg
          · apply List.sum_nonneg
            intro x hx
            obtain ⟨r, hr, rfl⟩ := List.mem_map.mp hx
            exact (hall r (List.mem_filter.mp hr).1).1
          · exact Nat.cast_nonneg _

/-- C1 witness: the amended statement applied at the one-row positive
master set `df_pos`. -/
theorem c1_vendedor_metrics_witness :
    ∃ t p : ℚ,
      vrow_pos.ticket_medio = PFloat.finite t ∧
      vrow_pos.performance = PFloat.finite p ∧
      (vrow_pos.total_os = 0 → t = 0 ∧ p = 0) ∧
      ((∀ r ∈ df_pos, 0 ≤ r.quantidade ∧ 0 ≤ r.valor_total) →
        0 ≤ t ∧ 0 ≤ p) :=
  c1_vendedor_metrics df_pos vrow_pos (by decide)

/-- C3 counterexample: the claim asserts the penetration percentages sum
to 100 whenever the grand-total quantity is positive.  With one null
product description, pandas drops that row from the product groups while
`total_geral` still counts its quantity: two rows of quantity 5, one with
a null description, give a grand total of 10 but a penetration sum of
50. -/
theorem c3_counterexample :
    0 < (df_null_desc.map (·.quantidade)).sum ∧
    ((calcular_metricas_produto df_null_desc).rows.map
      (·.penetracao_produto)).sum = 50 := by
  decide

/-- C3 amended: when every master row has a non-null `Descricao`, the
product penetration percentages sum to exactly 100 (the rational model is
exact, hence within any floating tolerance) whenever the grand-total
quantity is positive; and every penetration is 0 when the grand total is
0.  Rows the grouping drops over a null description break the 100-percent
identity, see the counterexample. -/
theorem c3_penetracao_sum (df : List Row) :
    ((∀ r ∈ df, r.descricao.isSome = true) →
      0 < (df.map (·.quantidade)).sum →
      ((calcular_metricas_produto df).rows.map (·.penetracao_produto)).sum
        = 100) ∧
    ((df.map (·.quantidade)).sum = 0 →
      ∀ row ∈ (calcular_metricas_produto df).rows,
        row.penetracao_produto = 0) := by
  have hfe : ∀ (k : String × String) (r : Row),
      (r.produto == k.1 && r.descricao == some k.2)
        = ((r.descricao.map (fun d => (r.produto, d))) == some k) := by
    rintro ⟨k1, k2⟩ r
    cases r.descricao with
    | none => simp
    | some d => rfl
  constructor
  · intro hall hT
    have hne : df.isEmpty = false := by
      cases df with
      | nil => simp at hT
      | cons a t => rfl
    unfold calcular_metricas_produto
    rw [hne]
    simp only [Bool.false_eq_true, if_false]
    rw [List.map_map]
    have hpen : ∀ k ∈ (df.filterMap
          (fun r => r.descricao.map (fun d => (r.produto, d)))).dedup,
        ((·.penetracao_produto) ∘ prod_row_of df) k
          = ((df.filter (fun r =>
              (r.descricao.map (fun d => (r.produto, d))) == some k)).map
              (·.quantidade)).sum * (100 / (df.map (·.quantidade)).sum) := by
      intro k _
      have hdef : ((·.penetracao_produto) ∘ prod_row_of df) k
          = if 0 < (df.map (·.quantidade)).sum then
              ((df.filter (fun r =>
                r.produto == k.1 && r.descricao == some k.2)).map
                (·.quantidade)).sum / (df.map (·.quantidade)).sum * 100
            else 0 := rfl
      have hfl : df.filter
            (fun r => r.produto == k.1 && r.descricao == some k.2)
          = df.filter (fun r =>
              (r.descricao.map (fun d => (r.produto, d))) == some k) :=
        List.filter_congr (fun r _ => hfe k r)
      rw [hdef, if_pos hT, hfl, div_mul_eq_mul_div, mul_div_assoc]
    rw [List.map_congr_left hpen, List.sum_map_mul_right,
      sum_filterMap_key (fun r => r.descricao.map (fun d => (r.produto, d)))
        (fun r => r.quantidade) df
        (fun r hr => by
          obtain ⟨d, hd⟩ := Option.isSome_iff_exists.mp (hall r hr)
          show (Option.map (fun d => (r.produto, d)) r.descricao).isSome = true
          rw [hd]
          rfl)]
    have hTne : (df.map (·.quantidade)).sum ≠ 0 := ne_of_gt hT
    field_simp
  · intro hT row hrow
    unfold calcular_metricas_produto at hrow
    by_cases hdf : df.isEmpty = true
    · rw [if_pos hdf] at hrow
      exact absurd hrow (List.not_mem_nil row)
    · rw [if_neg hdf] at hrow
      obtain ⟨k, hk, hrw⟩ := List.mem_map.mp hrow
      rw [← hrw]
      have hdef : (prod_row_of df k).penetracao_produto
          = if 0 < (df.map (·.quantidade)).sum then
              ((df.filter (fun r =>
                r.produto == k.1 && r.descricao == some k.2)).map
                (·.quantidade)).sum / (df.map (·.quantidade)).sum * 100
            else 0 := rfl
      rw [hdef, hT]
      exact if_neg (lt_irrefl 0)

/-- C3 witness: the amended positive-total clause at the concrete
two-product master set (quantities 10 and 5, both descriptions
present). -/
theorem c3_penetracao_sum_witness :
    ((calcular_metricas_produto df_two_products).rows.map
      (·.penetracao_produto)).sum = 100 :=
  (c3_penetracao_sum df_two_products).1 (by decide) (by decide)

/-- C7: value-inconsistency flagging is advisory.  Every flagged row is a
member of the rows it was flagged from (the flag removes nothing), and
concretely the record with total `100,00`, unit price `9,00` and quantity
`10` (difference 10, above the default tolerance 0.10) is flagged yet kept
in the Normalizer output `ct7` and aggregated: its 100 reaches the
salesperson aggregation. -/
theorem c7_inconsistency_advisory :
    (∀ (rows : List Row) (tolerancia : ℚ),
      ∀ r ∈ flagged_rows rows tolerancia, r ∈ rows) ∧
    (read_and_clean_xlsx tbl7 none = some ct7 ∧
     r7 ∈ ct7.rows ∧
     r7.diferenca = some 10 ∧
     r7 ∈ flagged_rows ct7.rows (1/10) ∧
     ((calcular_metricas_vendedor ct7.rows).rows.map (·.venda_rs))
       = [100]) := by
  refine ⟨?_, by decide⟩
  intro rows tolerancia r hr
  exact (List.mem_filter.mp hr).1

/-- C7 witness: the membership clause applied at the concrete flagged
row. -/
theorem c7_inconsistency_advisory_witness : r7 ∈ ct7.rows :=
  c7_inconsistency_advisory.1 ct7.rows (1/10) r7 (by decide)

/-- C9: over any non-empty frame with at least one missing-price row, the
missing-price message tier follows the thresholds: critical exactly when
the missing-price count exceeds 50 percent of the rows, warning exactly
when it exceeds 20 percent but not 50 percent, informational exactly
otherwise. -/
theorem c9_sem_preco_severity (df : QFrame) (h1 : df.rows ≠ [])
    (h2 : 0 < (validate_data_quality df).produtos_sem_preco) :
    ∃ s, show_validation_warnings_sem_preco (validate_data_quality df)
        = some s ∧
      (s = Severity.critical ↔
        (validate_data_quality df).total_registros
          < 2 * (validate_data_quality df).produtos_sem_preco) ∧
      (s = Severity.warning ↔
        ((validate_data_quality df).total_registros
            < 5 * (validate_data_quality df).produtos_sem_preco ∧
         2 * (validate_data_quality df).produtos_sem_preco
            ≤ (validate_data_quality df).total_registros)) ∧
      (s = Severity.info ↔
        5 * (validate_data_quality df).produtos_sem_preco
          ≤ (validate_data_quality df).total_registros) := by
  have hie : df.rows.isEmpty = false := by
    cases hx : df.rows with
    | nil => exact absurd hx h1
    | cons a t => rfl
  have htot : 0 < (validate_data_quality df).total_registros := by
    unfold validate_data_quality
    rw [hie]
    simp only [Bool.false_eq_true, if_false]
    exact List.length_pos.mpr h1
  have htQ : (0 : ℚ) < ((validate_data_quality df).total_registros : ℚ) := by
    exact_mod_cast htot
  have h50 : ((50 : ℚ) < ((validate_data_quality df).produtos_sem_preco : ℚ)
        / ((validate_data_quality df).total_registros : ℚ) * 100)
      ↔ (validate_data_quality df).total_registros
          < 2 * (validate_data_quality df).produtos_sem_preco := by
    rw [div_mul_eq_mul_div, lt_div_iff₀ htQ]
    constructor
    · intro hq
      have hq2 : 50 * (validate_data_quality df).total_registros
          < (validate_data_quality df).produtos_sem_preco * 100 := by
        exact_mod_cast hq
      omega
    · intro hn
      have hq2 : 50 * (validate_data_quality df).total_registros
          < (validate_data_quality df).produtos_sem_preco * 100 := by omega
      exact_mod_cast hq2
  have h20 : ((20 : ℚ) < ((validate_data_quality df).produtos_sem_preco : ℚ)
        / ((validate_data_quality df).total_registros : ℚ) * 100)
      ↔ (validate_data_quality df).total_registros
          < 5 * (validate_data_quality df).produtos_sem_preco := by
    rw [div_mul_eq_mul_div, lt_div_iff₀ htQ]
    constructor
    · intro hq
      have hq2 : 20 * (validate_data_quality df).total_registros
          < (validate_data_quality df).produtos_sem_preco * 100 := by
        exact_mod_cast hq
      omega
    · intro hn
      have hq2 : 20 * (validate_data_quality df).total_registros
          < (validate_data_quality df).produtos_sem_preco * 100 := by omega
      exact_mod_cast hq2
  unfold show_validation_warnings_sem_preco
  rw [if_neg (Nat.pos_iff_ne_zero.mp htot), if_pos h2]
  by_cases hc : (validate_data_quality df).total_registros
      < 2 * (validate_data_quality df).produtos_sem_preco
  · rw [if_pos (h50.mpr hc)]
    refine ⟨Severity.critical, rfl, ⟨fun _ => hc, fun _ => rfl⟩,
      ⟨fun hss => absurd hss (by decide), fun hrr => absurd hrr.2 (by omega)⟩,
      ⟨fun hss => absurd hss (by decide), fun hrr => absurd hrr (by omega)⟩⟩
  · by_cases hw : (validate_data_quality df).total_registros
        < 5 * (validate_data_quality df).produtos_sem_preco
    · rw [if_neg (by rw [h50]; omega), if_pos (h20.mpr hw)]
      refine ⟨Severity.warning, rfl,
        ⟨fun hss => absurd hss (by decide), fun hrr => absurd hrr hc⟩,
        ⟨fun _ => ⟨hw, Nat.le_of_not_lt hc⟩, fun _ => rfl⟩,
        ⟨fun hss => absurd hss (by decide), fun hrr => absurd hrr (by omega)⟩⟩
    · rw [if_neg (by rw [h50]; omega), if_neg (by rw [h20]; omega)]
      refine ⟨Severity.info, rfl,
        ⟨fun hss => absurd hss (by decide), fun hrr => absurd hrr hc⟩,
        ⟨fun hss => absurd hss (by decide), fun hrr => absurd hrr.1 hw⟩,
        ⟨fun _ => by omega, fun _ => rfl⟩⟩

/-- C9 witness: the 10-row frame with 6 missing-price rows (60 percent)
gets the critical tier. -/
theorem c9_sem_preco_severity_witness :
    show_validation_warnings_sem_preco (validate_data_quality q10)
      = some Severity.critical := by
  obtain ⟨s, hs, hcrit, _, _⟩ :=
    c9_sem_preco_severity q10 (by decide) (by decide)
  have hsc : s = Severity.critical := hcrit.mpr (by decide)
  rw [hsc] at hs
  exact hs

/-- Column presence agrees with list membership. -/
theorem contains_eq_mem (L : List String) (a : String) :
    L.contains a = true ↔ a ∈ L := List.elem_iff

/-- Column absence agrees with non-membership. -/
theorem contains_eq_false (L : List String) (a : String) :
    L.contains a = false ↔ a ∉ L := by
  constructor
  · intro h hmem
    rw [(contains_eq_mem L a).mpr hmem] at h
    cases h
  · intro h
    rcases hx : L.contains a with _ | _
    · rfl
    · exact absurd ((contains_eq_mem L a).mp hx) h

/-- Adding a column keeps it present. -/
theorem contains_add_col_self (L : List String) (c : String) :
    (add_col L c).contains c = true := by
  unfold add_col
  split
  · assumption
  · exact (contains_eq_mem _ _).mpr
      (List.mem_append_right L (List.mem_singleton.mpr rfl))

/-- Adding a different column does not affect presence. -/
theorem contains_add_col_ne (L : List String) {a c : String} (hne : a ≠ c) :
    (add_col L c).contains a = L.contains a := by
  unfold add_col
  split
  · rfl
  · rcases hc : L.contains a with _ | _
    · rw [contains_eq_false] at hc ⊢
      intro hmem
      rcases List.mem_append.mp hmem with hL | hs
      · exact hc hL
      · exact hne (List.mem_singleton.mp hs)
    · rw [contains_eq_mem] at hc ⊢
      exact List.mem_append_left _ hc

/-- A successful `read_and_clean_xlsx` over a raw table that does not
itself carry a `Nome_Loja` column produces one exactly when the store
filter is truthy, and then every output row carries the filter as its
store tag. -/
theorem read_and_clean_tagged (tbl : XlsxTable) (fl : Option String)
    (t : CleanTable) (h : read_and_clean_xlsx tbl fl = some t)
    (hraw : (tbl.columns.map rename_column).contains "Nome_Loja" = false) :
    t.columns.contains "Nome_Loja" = filter_truthy fl ∧
    ∀ r ∈ t.rows, r.nome_loja = if filter_truthy fl then fl else none := by
  simp only [read_and_clean_xlsx] at h
  split at h
  · exact absurd h (by simp)
  · split at h
    · exact absurd h (by simp)
    · have ht := Option.some.inj h
      subst ht
      constructor
      · dsimp only
        by_cases htr : filter_truthy fl = true
        · rw [if_pos htr, htr]
          exact contains_add_col_self _ _
        · have hfr : filter_truthy fl = false := Bool.eq_false_iff.mpr htr
          rw [if_neg htr, hfr]
          split
          · rw [contains_add_col_ne _ (by decide), contains_add_col_ne _ (by decide)]
            exact hraw
          · exact hraw
      · intro r hr
        obtain ⟨x, hx, hfx⟩ := List.mem_filterMap.mp hr
        cases hv : x.vendedor with
        | none => rw [hv] at hfx; exact absurd hfx (by simp)
        | some v =>
          cases hp : x.produto with
          | none => rw [hv, hp] at hfx; exact absurd hfx (by simp)
          | some p =>
            rw [hv, hp] at hfx
            have hlit := Option.some.inj hfx
            rw [← hlit]

/-- C5: the Source Combiner fails exactly when every source yields no
data; a source yielding nothing is skipped without affecting the rest; and
on success every combined row carries a store tag and the row count is the
sum of the per-source row counts (no deduplication).  The hypothesis says
no raw source sheet already carries a `Nome_Loja` column of its own. -/
theorem c5_combiner (cfgs : List LojaConfig)
    (hraw : ∀ c ∈ cfgs, c.path.all
      (fun tb => !((tb.columns.map rename_column).contains "Nome_Loja"))
        = true) :
    (load_and_combine_data cfgs = none ↔ ∀ c ∈ cfgs, load_source c = none) ∧
    (∀ c0 : LojaConfig, load_source c0 = none →
      load_and_combine_data (c0 :: cfgs) = load_and_combine_data cfgs) ∧
    (∀ res, load_and_combine_data cfgs = some res →
      (∀ r ∈ res, r.nome_loja.isSome = true) ∧
      res.length
        = ((cfgs.filterMap load_source).map (fun t => t.rows.length)).sum) := by
  refine ⟨?_, ?_, ?_⟩
  · constructor
    · intro h
      unfold load_and_combine_data at h
      split at h
      · next hie =>
        intro c hc
        have hnil := List.isEmpty_iff.mp hie
        have := List.filterMap_eq_nil_iff.mp hnil c hc
        exact Option.map_eq_none'.mp this
      · exact absurd h (by simp)
    · intro h
      unfold load_and_combine_data
      rw [if_pos]
      exact List.isEmpty_iff.mpr (List.filterMap_eq_nil_iff.mpr
        (fun c hc => Option.map_eq_none'.mpr (h c hc)))
  · intro c0 h0
    unfold load_and_combine_data
    have hnone : (load_source c0).map (tag_nome_loja c0) = none :=
      Option.map_eq_none'.mpr h0
    rw [List.filterMap_cons, hnone]
  · intro res h
    unfold load_and_combine_data at h
    split at h
    · exact absurd h (by simp)
    · next hie =>
      have hres := Option.some.inj h
      constructor
      · intro r hr
        rw [← hres] at hr
        obtain ⟨L, hL, hrL⟩ := List.mem_flatten.mp hr
        obtain ⟨c, hc, hFc⟩ := List.mem_filterMap.mp hL
        rcases hls : load_source c with _ | t
        · rw [hls] at hFc; exact absurd hFc (by simp)
        · rw [hls] at hFc
          have hL2 := Option.some.inj hFc
          rcases hp : c.path with _ | tb
          · rw [load_source, hp] at hls; exact absurd hls (by simp)
          · rw [load_source, hp] at hls
            have hcol : (tb.columns.map rename_column).contains "Nome_Loja"
                = false := by
              have := hraw c hc
              rw [hp, Option.all_some, Bool.not_eq_true'] at this
              exact this
            have htag := read_and_clean_tagged tb c.filter t hls hcol
            rw [← hL2] at hrL
            unfold tag_nome_loja at hrL
            split at hrL
            · next hcc =>
              have htr : filter_truthy c.filter = true := by
                rw [← htag.1]; exact hcc
              have hval := htag.2 r hrL
              rw [if_pos htr] at hval
              rcases hcf : c.filter with _ | f
              · rw [hcf] at htr; exact absurd htr (by decide)
              · rw [hval, hcf]; rfl
            · obtain ⟨r0, hr0, hrw⟩ := List.mem_map.mp hrL
              rw [← hrw]
              rfl
      · rw [← hres, List.length_flatten]
        clear hres h hie
        induction cfgs with
        | nil => rfl
        | cons c cs ih =>
          have ih2 := ih (fun c hc => hraw c (List.mem_cons_of_mem _ hc))
          rcases hls : load_source c with _ | t
          · have hnone : (load_source c).map (tag_nome_loja c) = none := by
              rw [hls]; rfl
            rw [List.filterMap_cons, List.filterMap_cons, hnone, hls, ih2]
          · have hsome : (load_source c).map (tag_nome_loja c)
                = some (tag_nome_loja c t) := by rw [hls]; rfl
            have hlen : (tag_nome_loja c t).length = t.rows.length := by
              unfold tag_nome_loja
              split
              · rfl
              · exact List.length_map _ _
            rw [List.filterMap_cons, List.filterMap_cons, hsome, hls]
            simp only [List.map_cons, List.sum_cons, hlen, ih2]

/-- C5 witness: combining the two one-row stores of `cfgA` and `cfgB`
yields two tagged rows, the sum of the per-source counts. -/
theorem c5_combiner_witness :
    (∀ r ∈ resAB, r.nome_loja.isSome = true) ∧
    resAB.length
      = ((([cfgA, cfgB]).filterMap load_source).map
          (fun t => t.rows.length)).sum :=
  (c5_combiner [cfgA, cfgB] (by decide)).2.2 resAB (by decide)

end

